import Mathlib

/-!
Verification development for the go-http-client resilient outbound-request
pipeline: retry transport with exponential backoff and Retry-After handling,
retry-settings validation against the client timeout, header injection, and
the keyed circuit-breaker registry.

Conventions of the shallow embedding:
* Go `time.Duration` values are `Int` nanoseconds.
* The float64 `Multiplier` is embedded as `ℚ`; Go's float-to-integer
  conversion (truncation toward zero) is `durMulTrunc`.
* Fallible Go functions return `Except`; a Go panic is `Option.none`.
* The terminal `http.RoundTripper` is an oracle `Nat → Attempt` giving the
  outcome of each transport attempt.
-/

namespace GoHttpClient

/-- One nanosecond-scaled second, mirroring Go's `time.Second`. -/
def second : Int := 1000000000

def millisecond : Int := 1000000

/-- Go float-to-`time.Duration` conversion of `interval * multiplier`:
float64 multiplication then truncation toward zero. -/
def durMulTrunc (d : Int) (m : ℚ) : Int :=
  let q : ℚ := (d : ℚ) * m
  if 0 ≤ q then ⌊q⌋ else ⌈q⌉

/-- The `RetrySettings` from the source (Multiplier as ℚ; a `nil` Go slice for
`RetriableStatusCodes` is `none`, a non-nil slice is `some`). -/
structure RetrySettings where
  MaxRetries : Int
  InitialInterval : Int
  MaxInterval : Int
  Multiplier : ℚ
  RetriableStatusCodes : Option (List Int)
deriving DecidableEq

/-- Constant `backoff.DefaultInitialInterval` (500ms). -/
def defaultInitialInterval : Int := 500 * millisecond

/-- Constant `backoff.DefaultMaxInterval` (60s). -/
def defaultMaxInterval : Int := 60 * second

/-- Constant `backoff.DefaultMultiplier` (1.5). -/
def defaultMultiplier : ℚ := 3 / 2

def defaultRetriableStatusCodes : List Int := [429, 502, 503, 504]

/-- The `RetrySettings.applyDefaults` from the source: each zero-valued field is
replaced by its default. -/
def RetrySettings.applyDefaults (rs : RetrySettings) : RetrySettings :=
  let rs := if rs.MaxRetries = 0 then { rs with MaxRetries := 3 } else rs
  let rs := if rs.InitialInterval = 0 then
    { rs with InitialInterval := defaultInitialInterval } else rs
  let rs := if rs.MaxInterval = 0 then
    { rs with MaxInterval := defaultMaxInterval } else rs
  let rs := if rs.Multiplier = 0 then
    { rs with Multiplier := defaultMultiplier } else rs
  let rs := if rs.RetriableStatusCodes = none then
    { rs with RetriableStatusCodes := some defaultRetriableStatusCodes } else rs
  rs

/-- The `retryTransport` struct from the source (the `next` round tripper is
supplied separately as an oracle). -/
structure RetryTransport where
  maxRetries : Int
  initialInterval : Int
  maxInterval : Int
  multiplier : ℚ
  retriableStatusCodes : List Int
deriving DecidableEq

/-- The `newRetryTransport` from the source: applies defaults and copies the
settings into the transport. -/
def newRetryTransport (settings : RetrySettings) : RetryTransport :=
  let s := settings.applyDefaults
  { maxRetries := s.MaxRetries
    initialInterval := s.InitialInterval
    maxInterval := s.MaxInterval
    multiplier := s.Multiplier
    retriableStatusCodes := s.RetriableStatusCodes.getD defaultRetriableStatusCodes }

/-- The `retryTransport.shouldRetry` from the source: `slices.Contains`. -/
def shouldRetry (t : RetryTransport) (statusCode : Int) : Bool :=
  t.retriableStatusCodes.contains statusCode

/-- The `isIdempotent` from the source: the Go switch over the method string. -/
def isIdempotent (method : String) : Bool :=
  if method = "GET" || method = "HEAD" || method = "OPTIONS" ||
     method = "TRACE" || method = "PUT" || method = "DELETE" then
    true
  else if method = "POST" || method = "PATCH" then
    false
  else
    false

/-- The outcome of parsing a `Retry-After` header string with the Go
standard library (source tries `strconv.ParseInt` first, then
`http.ParseTime`): the header is empty, an integer, an HTTP date with the
given absolute time (ns), or neither. -/
inductive RetryAfterValue where
  | empty
  | intForm (s : Int)
  | dateForm (t : Int)
  | unparseable
deriving DecidableEq

/-- The `parseRetryAfter` from the source. `now` is the current time in ns
(`time.Until t = t - now`). Integer seconds are accepted in (0, 300];
dates are accepted when the remaining duration is in (0, 5min]. -/
def parseRetryAfter (header : RetryAfterValue) (now : Int) : Int :=
  match header with
  | .empty => 0
  | .intForm s => if 0 < s ∧ s ≤ 300 then s * second else 0
  | .dateForm t =>
    let duration := t - now
    if 0 < duration ∧ duration ≤ 300 * second then duration else 0
  | .unparseable => 0

/-- Validation errors of `validateRetrySettings`, one per `fmt.Errorf` branch in
the source. -/
inductive RetryValidationError where
  | maxRetriesNegative
  | initialIntervalNonPositive
  | maxIntervalLessThanInitial
  | multiplierLessThanOne
  | worstCaseBackoffTooLarge
deriving DecidableEq

/-- The worst-case cumulative backoff loop of `validateRetrySettings`: for
each of `maxRetries` iterations, cap the interval at `maxInterval`, add it,
then multiply by the multiplier (with Go float truncation). -/
def worstCaseLoop (maxInterval : Int) (m : ℚ) : Nat → Int → Int → Int
  | 0, _, acc => acc
  | n + 1, interval, acc =>
    let capped := if maxInterval < interval then maxInterval else interval
    worstCaseLoop maxInterval m n (durMulTrunc capped m) (acc + capped)

/-- The worst-case cumulative backoff computed by `validateRetrySettings`
on already-defaulted settings. -/
def worstCaseRetryTime (s : RetrySettings) : Int :=
  worstCaseLoop s.MaxInterval s.Multiplier s.MaxRetries.toNat s.InitialInterval 0

/-- The `validateRetrySettings` from the source: applies defaults, then checks
the four field conditions in order, then the worst-case cumulative backoff
against the client timeout. -/
def validateRetrySettings (settings : RetrySettings) (clientTimeout : Int) :
    Except RetryValidationError Unit :=
  let s := settings.applyDefaults
  if s.MaxRetries < 0 then
    .error .maxRetriesNegative
  else if s.InitialInterval ≤ 0 then
    .error .initialIntervalNonPositive
  else if s.MaxInterval < s.InitialInterval then
    .error .maxIntervalLessThanInitial
  else if s.Multiplier < 1 then
    .error .multiplierLessThanOne
  else if clientTimeout ≤ worstCaseRetryTime s then
    .error .worstCaseBackoffTooLarge
  else
    .ok ()

/-- A response as seen by the retry transport: its status code and the
parsed form of its `Retry-After` header (`resp.Header.Get` of an absent
header is the empty string, i.e. `.empty`). -/
structure Response where
  statusCode : Int
  retryAfter : RetryAfterValue
deriving DecidableEq

/-- The outcome of one attempt of the wrapped round tripper `t.next`:
a transport error or a response. -/
inductive Attempt where
  | err (msg : String)
  | resp (r : Response)
deriving DecidableEq

/-- The error returned by the operation closure `op` inside
`retryTransport.RoundTrip`: a transport error passed through, a
`backoff.RetryAfterError` carrying the parsed delay, or the
`retriable status code: %d` error. -/
inductive OpFailure where
  | transportErr (msg : String)
  | retryAfterErr (d : Int)
  | retriableStatus (code : Int)
deriving DecidableEq

/-- The operation closure `op` from `retryTransport.RoundTrip`: a transport
error is passed through; a non-retriable status is returned as the result;
a retriable 429/503 with a positive parsed `Retry-After` yields a
`backoff.RetryAfterError` (the response is drained, closed and discarded);
any other retriable status yields the generic retriable-status error
(the response is likewise drained, closed and discarded). -/
def opStep (t : RetryTransport) (now : Int) (a : Attempt) :
    Except OpFailure Response :=
  match a with
  | .err e => .error (.transportErr e)
  | .resp r =>
    if shouldRetry t r.statusCode = false then
      .ok r
    else if (r.statusCode = 429 ∨ r.statusCode = 503) ∧
        0 < parseRetryAfter r.retryAfter now then
      .error (.retryAfterErr (parseRetryAfter r.retryAfter now))
    else
      .error (.retriableStatus r.statusCode)

/-- Modelled from the spec: one advancement of the exponential backoff state
of `backoff.ExponentialBackOff` (the library itself is not part of this
repository): the interval is multiplied by the multiplier after each
attempt and capped at `maxInterval`. -/
def advance (t : RetryTransport) (interval : Int) : Int :=
  min (durMulTrunc interval t.multiplier) t.maxInterval

/-- The deterministic exponential backoff sequence starting from a given
interval: `intervalAt t i j` is the interval after `j` advancements. -/
def intervalAt (t : RetryTransport) (interval : Int) : Nat → Int
  | 0 => interval
  | j + 1 => advance t (intervalAt t interval j)

/-- Go's conversion `uint(i)` for a 64-bit int. -/
def goUint64 (i : Int) : Nat := (i % (2 : Int) ^ 64).toNat

/-- The `backoff.WithMaxTries(uint(t.maxRetries)+1)` bound: total tries
including the initial attempt, with Go's 64-bit unsigned wraparound. -/
def maxTries (t : RetryTransport) : Nat := (goUint64 t.maxRetries + 1) % 2 ^ 64

/-- Modelled from the spec (and pinned by the repository's own retry tests):
the `backoff.Retry` driver (the `cenkalti/backoff` library is not part of
this repository). Attempt `i` runs `op`; on success the response is
returned; on failure with tries remaining the loop waits — for a
`RetryAfterError` the wait is the carried duration, otherwise the current
exponential interval — advances the exponential state and retries; when
tries are exhausted the final failure is returned with no further wait.
Returns (result, number of attempts, list of waits). Deadline/cancellation
preemption is outside this model. -/
def retryLoop (t : RetryTransport) (oracle : Nat → Attempt) (now : Int) :
    Nat → Nat → Int → Except OpFailure Response × Nat × List Int
  | 0, _, _ => (.error (.transportErr "no tries"), 0, [])
  | n + 1, i, interval =>
    match opStep t now (oracle i) with
    | .ok r => (.ok r, 1, [])
    | .error f =>
      match n with
      | 0 => (.error f, 1, [])
      | m + 1 =>
        let wait : Int :=
          match f with
          | .retryAfterErr d => d
          | _ => interval
        let rest := retryLoop t oracle now (m + 1) (i + 1) (advance t interval)
        (rest.1, rest.2.1 + 1, wait :: rest.2.2)

/-- The `retryTransport.RoundTrip` from the source: a non-idempotent method is
forwarded to `t.next` exactly once and its outcome returned unchanged; an
idempotent method runs the retry loop with `uint(maxRetries)+1` total tries
starting at the initial interval. Returns (result, attempts, waits). -/
def retryRoundTrip (t : RetryTransport) (method : String)
    (oracle : Nat → Attempt) (now : Int) :
    Except OpFailure Response × Nat × List Int :=
  if isIdempotent method = false then
    match oracle 0 with
    | .err e => (.error (.transportErr e), 1, [])
    | .resp r => (.ok r, 1, [])
  else
    retryLoop t oracle now (maxTries t) 0 t.initialInterval

/-- The configuration assembled by `NewClient`, restricted to the parts
that can fail: the retry settings ( `nil` pointer is `none`). The header,
pool and instrumentation options never fail construction. -/
structure ClientConfig where
  retrySettings : Option RetrySettings

/-- Errors of `NewClient` construction. -/
inductive BuildError where
  | invalidTimeout
  | retryValidation (e : RetryValidationError)
deriving DecidableEq

/-- The pipeline value built by `NewClient`: the timeout and, when retries
are configured, the validated retry transport. -/
structure BuiltPipeline where
  timeout : Int
  retry : Option RetryTransport
deriving DecidableEq

/-- The `NewClient` from the source: rejects a non-positive timeout, then — when
a retry policy is supplied — validates it against the timeout before
building the retry transport; on a validation error no pipeline (and hence
no transport chain) is ever built. -/
def NewClient (timeout : Int) (cfg : ClientConfig) :
    Except BuildError BuiltPipeline :=
  if timeout ≤ 0 then
    .error .invalidTimeout
  else
    match cfg.retrySettings with
    | none => .ok { timeout := timeout, retry := none }
    | some rs =>
      match validateRetrySettings rs timeout with
      | .error e => .error (.retryValidation e)
      | .ok _ => .ok { timeout := timeout, retry := some (newRetryTransport rs) }

/-- An `http.Header`: an association from (canonicalized) header names to
their value lists. -/
def Header := List (String × List String)

/-- The `http.Header.Get`: the first value for the name, or the empty string
when the header is absent (or its value list is empty). -/
def hGet (h : Header) (key : String) : String :=
  match List.lookup key h with
  | some (v :: _) => v
  | _ => ""

/-- The `http.Header.Set`: replaces all values for the name with a single one. -/
def hSet (h : Header) (key value : String) : Header :=
  (key, [value]) :: List.filter (fun p => decide (p.1 ≠ key)) h

/-- The `HeaderSettings` from the source: static name→value pairs and
context header name→context key pairs (the `any` context key is embedded
as a `String` identifier). -/
structure HeaderSettings where
  StaticHeaders : List (String × String)
  ContextHeaders : List (String × String)

/-- The header rewriting performed by `headerTransport.RoundTrip` on the
cloned request's headers: each static header is set when `Get` of its name
is empty; then each context header whose key resolves in the context
(`fmt.Sprint` of the value embedded as the resolved `String`) is set when
`Get` of its name is empty. The caller's original header map is left
untouched — the transform builds the clone's headers. -/
def headerTransform (s : HeaderSettings) (ctx : String → Option String)
    (h : Header) : Header :=
  let afterStatic := s.StaticHeaders.foldl
    (fun acc kv => if hGet acc kv.1 = "" then hSet acc kv.1 kv.2 else acc) h
  s.ContextHeaders.foldl
    (fun acc kv =>
      match ctx kv.2 with
      | none => acc
      | some value =>
        if hGet acc kv.1 ≠ "" then acc else hSet acc kv.1 value)
    afterStatic

/-- A response as seen by the circuit-breaker layer: status code and body. -/
structure SimpleResponse where
  status : Int
  body : String
deriving DecidableEq

/-- Errors crossing the circuit-breaker layer: `gobreaker.ErrOpenState`,
the distinguished `ErrBadResponse` trip marker, or an error of the guarded
operation itself. `errors.Is` matching is constructor equality. -/
inductive GErr where
  | openState
  | badResponse
  | opErr (msg : String)
deriving DecidableEq

/-- Modelled from the spec: the breaker state machine states of the
`sony/gobreaker` dependency (the library is not part of this repository):
Closed → Open → HalfOpen. -/
inductive BState where
  | closed
  | opened
  | halfOpen
deriving DecidableEq

/-- Modelled from the spec: one breaker's mutable state — the current
machine state, the rolling consecutive-failure count, and the time the
breaker opened. -/
structure Breaker where
  state : BState
  consecutiveFailures : Nat
  openedAt : Int
deriving DecidableEq

def initialBreaker : Breaker := { state := .closed, consecutiveFailures := 0, openedAt := 0 }

/-- Modelled from the spec: the state the breaker is observed in at `now` —
an open breaker whose open-timeout has elapsed admits trial calls
(half-open). -/
def Breaker.current (b : Breaker) (timeout now : Int) : BState :=
  match b.state with
  | .opened => if b.openedAt + timeout ≤ now then .halfOpen else .opened
  | s => s

/-- Modelled from the spec: recording a failure. In Closed the consecutive
failure count increments and the breaker opens when the trip-readiness
predicate holds of the new count; any failure among half-open trial calls
reopens the breaker. -/
def Breaker.onFailure (b : Breaker) (readyToTrip : Nat → Bool) (now : Int)
    (observed : BState) : Breaker :=
  match observed with
  | .closed =>
    let f := b.consecutiveFailures + 1
    if readyToTrip f then
      { state := .opened, consecutiveFailures := 0, openedAt := now }
    else
      { b with state := .closed, consecutiveFailures := f }
  | .halfOpen => { state := .opened, consecutiveFailures := 0, openedAt := now }
  | .opened => b

/-- Modelled from the spec: recording a success — the failure count resets;
a sufficient run of half-open successes closes the breaker. -/
def Breaker.onSuccess (b : Breaker) (observed : BState) : Breaker :=
  match observed with
  | .closed => { b with state := .closed, consecutiveFailures := 0 }
  | .halfOpen => { state := .closed, consecutiveFailures := 0, openedAt := b.openedAt }
  | .opened => b

/-- Modelled from the spec: `gobreaker.CircuitBreaker.Execute`. When the
breaker is observed open the guarded operation is NOT invoked and
`ErrOpenState` is returned; otherwise the operation runs, an error outcome
records a failure and a nil-error outcome records a success, and the
operation's (result, error) pair is returned unchanged. The `Bool` reports
whether the operation was invoked. -/
def breakerExecute (timeout : Int) (readyToTrip : Nat → Bool) (b : Breaker)
    (now : Int) (fnRes : Option SimpleResponse × Option GErr) :
    (Option SimpleResponse × Option GErr) × Breaker × Bool :=
  match b.current timeout now with
  | .opened => ((none, some .openState), b, false)
  | observed =>
    match fnRes.2 with
    | some _ => (fnRes, b.onFailure readyToTrip now observed, true)
    | none => (fnRes, b.onSuccess observed, true)

/-- The `CircuitBreakerSettings` from the source, restricted to the parts the
claims depend on: the trip-readiness predicate over consecutive failures
and the open-state timeout (from the embedded `gobreaker.Settings`), and
the optional status-code trip predicate (`nil` is `none`). -/
structure CircuitBreakerSettings where
  readyToTrip : Nat → Bool
  timeout : Int
  ShouldTrip : Option (Int → Bool)

/-- The default status-code trip predicate from `newCircuitBreakers`:
status ≥ 500 (`http.StatusInternalServerError`) trips. -/
def defaultShouldTrip : Int → Bool := fun statusCode => decide (500 ≤ statusCode)

/-- The `circuitBreakerConfig` from the source: the breaker plus its resolved
status-code trip predicate. -/
structure CircuitBreakerConfig where
  readyToTrip : Nat → Bool
  timeout : Int
  shouldTrip : Int → Bool
  breaker : Breaker

/-- Keys of the breaker registry (`CircuitBreakerKey`). -/
abbrev CircuitBreakerKey := String

/-- The `newCircuitBreakers` from the source: builds the registry, defaulting an
unset `ShouldTrip` to the ≥ 500 predicate; each breaker starts in the
initial (Closed) state. (The name and state-change-logging defaults are
side-channel only and are not modelled.) -/
def newCircuitBreakers
    (cbSettings : List (CircuitBreakerKey × CircuitBreakerSettings)) :
    List (CircuitBreakerKey × CircuitBreakerConfig) :=
  cbSettings.map (fun kv =>
    (kv.1,
      { readyToTrip := kv.2.readyToTrip
        timeout := kv.2.timeout
        shouldTrip := kv.2.ShouldTrip.getD defaultShouldTrip
        breaker := initialBreaker }))

/-- The `HTTPClient`, restricted to its breaker registry. -/
structure HTTPClient where
  breakers : List (CircuitBreakerKey × CircuitBreakerConfig)

/-- The `HTTPClient.GetBreaker` from the source. A Go panic on an unregistered
key is `none`; a registered key yields its breaker. -/
def GetBreaker (c : HTTPClient) (key : CircuitBreakerKey) : Option Breaker :=
  match List.lookup key c.breakers with
  | none => none
  | some cfg => some cfg.breaker

/-- The `HTTPClient.ShouldTrip` from the source. A Go panic on an unregistered
key is `none`. -/
def ShouldTrip (c : HTTPClient) (key : CircuitBreakerKey) (statusCode : Int) :
    Option Bool :=
  match List.lookup key c.breakers with
  | none => none
  | some cfg => some (cfg.shouldTrip statusCode)

/-- Replaces the stored breaker state for a key (Go mutates the breaker in
place through the registry). -/
def setBreaker (c : HTTPClient) (key : CircuitBreakerKey) (b : Breaker) :
    HTTPClient :=
  { breakers := c.breakers.map (fun kv =>
      if kv.1 = key then (kv.1, { kv.2 with breaker := b }) else kv) }

/-- The `HTTPClient.ExecuteWithBreaker` from the source: looks up the breaker
(panic — `none` — when the key is unregistered), wraps the caller's
operation so that an error is passed through and a response whose status
satisfies the trip predicate is paired with `ErrBadResponse`, and runs the
wrapped operation through the breaker. The caller's operation outcome is
the oracle `fnRes`; returns the (response, error) pair, the updated client,
and whether the operation was invoked. -/
def ExecuteWithBreaker (c : HTTPClient) (key : CircuitBreakerKey) (now : Int)
    (fnRes : Except String SimpleResponse) :
    Option ((Option SimpleResponse × Option GErr) × HTTPClient × Bool) :=
  match List.lookup key c.breakers with
  | none => none
  | some cfg =>
    let wrapped : Option SimpleResponse × Option GErr :=
      match fnRes with
      | .error e => (none, some (.opErr e))
      | .ok resp =>
        if cfg.shouldTrip resp.status then (some resp, some .badResponse)
        else (some resp, none)
    let res := breakerExecute cfg.timeout cfg.readyToTrip cfg.breaker now wrapped
    some (res.1, setBreaker c key res.2.1, res.2.2)

/-- The standalone `circuitbreaker` package transport (`circuitbreaker/http.go`),
restricted to the parts the claims depend on. -/
structure CBTransport where
  readyToTrip : Nat → Bool
  timeout : Int
  shouldTrip : Int → Bool
  cb : Breaker

/-- The `circuitbreaker.NewRoundTripper` from the source: defaults an unset
`ShouldTrip` to the ≥ 500 predicate and starts the breaker in the initial
state. -/
def cbNewRoundTripper (settings : CircuitBreakerSettings) : CBTransport :=
  { readyToTrip := settings.readyToTrip
    timeout := settings.timeout
    shouldTrip := settings.ShouldTrip.getD defaultShouldTrip
    cb := initialBreaker }

/-- The `circuitBreakerTransport.RoundTrip` from the source: the wrapped round
trip's outcome (`attempt`) is run through the breaker — a non-nil response
whose status satisfies the trip predicate is paired with the internal
`errBadResponse` so the breaker counts it as a failure — and afterwards an
`errBadResponse` result is suppressed, returning the real response with a
nil error. Returns the (response, error) pair, the updated transport, and
whether the wrapped round trip was invoked. -/
def cbRoundTrip (t : CBTransport) (now : Int)
    (attempt : Except String SimpleResponse) :
    (Option SimpleResponse × Option GErr) × CBTransport × Bool :=
  let fnRes : Option SimpleResponse × Option GErr :=
    match attempt with
    | .ok resp =>
      if t.shouldTrip resp.status then (some resp, some .badResponse)
      else (some resp, none)
    | .error e => (none, some (.opErr e))
  let res := breakerExecute t.timeout t.readyToTrip t.cb now fnRes
  let suppressed : Option SimpleResponse × Option GErr :=
    match res.1 with
    | (r, some .badResponse) => (r, none)
    | x => x
  (suppressed, { t with cb := res.2.1 }, res.2.2)

/-! ### Helper lemmas -/

/-- The conventionally idempotent method set of the source's `isIdempotent`. -/
def idempotentMethods : List String :=
  ["GET", "HEAD", "OPTIONS", "TRACE", "PUT", "DELETE"]

theorem isIdempotent_iff_mem (m : String) :
    isIdempotent m = true ↔ m ∈ idempotentMethods := by
  constructor
  · intro h
    unfold isIdempotent at h
    by_cases hc : m = "GET" ∨ m = "HEAD" ∨ m = "OPTIONS" ∨ m = "TRACE" ∨
        m = "PUT" ∨ m = "DELETE"
    · simp only [idempotentMethods, List.mem_cons, List.not_mem_nil, or_false]
      tauto
    · exfalso
      push_neg at hc
      obtain ⟨h1, h2, h3, h4, h5, h6⟩ := hc
      simp [h1, h2, h3, h4, h5, h6] at h
  · intro h
    fin_cases h <;> rfl

theorem opStep_ok (t : RetryTransport) (now : Int) (a : Attempt) (r : Response)
    (h : opStep t now a = .ok r) : shouldRetry t r.statusCode = false := by
  cases a with
  | err e => simp [opStep] at h
  | resp r0 =>
    simp only [opStep] at h
    by_cases h1 : shouldRetry t r0.statusCode = false
    · rw [if_pos h1] at h
      cases h
      exact h1
    · rw [if_neg h1] at h
      by_cases h2 : (r0.statusCode = 429 ∨ r0.statusCode = 503) ∧
          0 < parseRetryAfter r0.retryAfter now
      · rw [if_pos h2] at h
        cases h
      · rw [if_neg h2] at h
        cases h

theorem intervalAt_advance (t : RetryTransport) (interval : Int) (j : Nat) :
    intervalAt t (advance t interval) j = intervalAt t interval (j + 1) := by
  induction j with
  | zero => rfl
  | succ k ih => simp [intervalAt, ih]

theorem retryLoop_one (t : RetryTransport) (oracle : Nat → Attempt) (now : Int)
    (i : Nat) (interval : Int) :
    retryLoop t oracle now 1 i interval =
      match opStep t now (oracle i) with
      | .ok r => (.ok r, 1, [])
      | .error f => (.error f, 1, []) := by
  cases h : opStep t now (oracle i) with
  | ok r => simp only [retryLoop, h]
  | error f => simp only [retryLoop, h]

theorem retryLoop_succ (t : RetryTransport) (oracle : Nat → Attempt) (now : Int)
    (i m : Nat) (interval : Int) :
    retryLoop t oracle now (m + 2) i interval =
      match opStep t now (oracle i) with
      | .ok r => (.ok r, 1, [])
      | .error f =>
        ((retryLoop t oracle now (m + 1) (i + 1) (advance t interval)).1,
         (retryLoop t oracle now (m + 1) (i + 1) (advance t interval)).2.1 + 1,
         (match f with
          | .retryAfterErr d => d
          | _ => interval) ::
           (retryLoop t oracle now (m + 1) (i + 1) (advance t interval)).2.2) := by
  cases h : opStep t now (oracle i) with
  | ok r => rw [retryLoop]; rw [h]
  | error f => rw [retryLoop]; rw [h]

/-- Structure lemma for one run of the modelled `backoff.Retry` driver: it
makes between 1 and `tries` attempts, propagates the final attempt's
op-level outcome, records one wait per non-final attempt, and each wait is
the Retry-After duration when that attempt failed with a
`RetryAfterError` and the current exponential interval otherwise. -/
theorem retryLoop_spec (t : RetryTransport) (oracle : Nat → Attempt) (now : Int) :
    ∀ (tries i : Nat) (interval : Int), 1 ≤ tries →
      1 ≤ (retryLoop t oracle now tries i interval).2.1 ∧
      (retryLoop t oracle now tries i interval).2.1 ≤ tries ∧
      (retryLoop t oracle now tries i interval).1 =
        opStep t now (oracle (i + ((retryLoop t oracle now tries i interval).2.1 - 1))) ∧
      (retryLoop t oracle now tries i interval).2.2.length =
        (retryLoop t oracle now tries i interval).2.1 - 1 ∧
      (∀ j, j < (retryLoop t oracle now tries i interval).2.2.length →
        (retryLoop t oracle now tries i interval).2.2.getD j 0 =
          match opStep t now (oracle (i + j)) with
          | .error (.retryAfterErr d) => d
          | _ => intervalAt t interval j) := by
  intro tries
  induction tries with
  | zero => intro i interval h; omega
  | succ n ih =>
    intro i interval _
    cases n with
    | zero =>
      rw [retryLoop_one]
      cases hstep : opStep t now (oracle i) with
      | ok r =>
        dsimp only
        refine ⟨by omega, by omega, ?_, rfl, ?_⟩
        · simpa using hstep.symm
        · intro j hj
          simp at hj
      | error f =>
        dsimp only
        refine ⟨by omega, by omega, ?_, rfl, ?_⟩
        · simpa using hstep.symm
        · intro j hj
          simp at hj
    | succ m =>
      rw [retryLoop_succ]
      cases hstep : opStep t now (oracle i) with
      | ok r =>
        dsimp only
        refine ⟨by omega, by omega, ?_, rfl, ?_⟩
        · simpa using hstep.symm
        · intro j hj
          simp at hj
      | error f =>
        dsimp only
        obtain ⟨ih1, ih2, ih3, ih4, ih5⟩ := ih (i + 1) (advance t interval) (by omega)
        refine ⟨by omega, by omega, ?_, ?_, ?_⟩
        · have hidx : (i + 1) +
              ((retryLoop t oracle now (m + 1) (i + 1) (advance t interval)).2.1 - 1) =
              i + ((retryLoop t oracle now (m + 1) (i + 1) (advance t interval)).2.1 + 1 - 1) := by
            omega
          rw [← hidx]
          exact ih3
        · simp only [List.length_cons, ih4]
          omega
        · intro j hj
          cases j with
          | zero =>
            simp only [List.getD_cons_zero, Nat.add_zero, hstep]
            cases f <;> rfl
          | succ jj =>
            simp only [List.getD_cons_succ]
            have hjj : jj < (retryLoop t oracle now (m + 1) (i + 1) (advance t interval)).2.2.length := by
              simp only [List.length_cons] at hj
              omega
            have := ih5 jj hjj
            rw [this, intervalAt_advance]
            have hidx2 : (i + 1) + jj = i + (jj + 1) := by omega
            rw [hidx2]

/-! ### Claim theorems -/

/-- C4: `parseRetryAfter` is a pure function of the header (and, for the
HTTP-date form, of the current time): integer seconds in (0,300] map to
exactly that many seconds; an integer ≤ 0 or > 300 maps to zero; an empty
or unparseable value maps to zero; an HTTP-date at most 5 minutes in the
future maps to the remaining duration; a past date or one more than
5 minutes in the future maps to zero; and the returned wait never exceeds
5 minutes. -/
theorem parseRetryAfter_spec (now : Int) :
    (∀ s : Int, 0 < s → s ≤ 300 → parseRetryAfter (.intForm s) now = s * second) ∧
    (∀ s : Int, s ≤ 0 ∨ 300 < s → parseRetryAfter (.intForm s) now = 0) ∧
    parseRetryAfter .empty now = 0 ∧
    parseRetryAfter .unparseable now = 0 ∧
    (∀ d : Int, 0 < d - now → d - now ≤ 300 * second →
      parseRetryAfter (.dateForm d) now = d - now) ∧
    (∀ d : Int, d - now ≤ 0 → parseRetryAfter (.dateForm d) now = 0) ∧
    (∀ d : Int, 300 * second < d - now → parseRetryAfter (.dateForm d) now = 0) ∧
    (∀ v : RetryAfterValue, parseRetryAfter v now ≤ 300 * second) := by
  refine ⟨?_, ?_, rfl, rfl, ?_, ?_, ?_, ?_⟩
  · intro s h1 h2
    simp only [parseRetryAfter]
    rw [if_pos ⟨h1, h2⟩]
  · intro s h
    simp only [parseRetryAfter]
    rw [if_neg (by omega)]
  · intro d h1 h2
    simp only [parseRetryAfter]
    rw [if_pos ⟨h1, h2⟩]
  · intro d h
    simp only [parseRetryAfter]
    rw [if_neg (by omega)]
  · intro d h
    simp only [parseRetryAfter]
    rw [if_neg (by omega)]
  · intro v
    cases v with
    | empty => simp [parseRetryAfter, second]
    | unparseable => simp [parseRetryAfter, second]
    | intForm s =>
      simp only [parseRetryAfter, second]
      split
      · next h => omega
      · omega
    | dateForm d =>
      simp only [parseRetryAfter, second]
      split
      · next h => omega
      · omega

/-- C4 witness: concrete evaluations of every regime of
`parseRetryAfter_spec` at `now = 0`. -/
theorem parseRetryAfter_spec_witness :
    parseRetryAfter (.intForm 30) 0 = 30 * second ∧
    parseRetryAfter (.intForm 301) 0 = 0 ∧
    parseRetryAfter (.intForm (-10)) 0 = 0 ∧
    parseRetryAfter (.dateForm (100 * second)) 0 = 100 * second ∧
    parseRetryAfter (.dateForm (-5)) 0 = 0 ∧
    parseRetryAfter (.dateForm (301 * second)) 0 = 0 ∧
    parseRetryAfter (.intForm 300) 0 ≤ 300 * second := by
  refine ⟨(parseRetryAfter_spec 0).1 30 (by decide) (by decide),
    (parseRetryAfter_spec 0).2.1 301 (by decide),
    (parseRetryAfter_spec 0).2.1 (-10) (by decide),
    (parseRetryAfter_spec 0).2.2.2.2.1 (100 * second) (by decide) (by decide),
    (parseRetryAfter_spec 0).2.2.2.2.2.1 (-5) (by decide),
    (parseRetryAfter_spec 0).2.2.2.2.2.2.1 (301 * second) (by decide),
    (parseRetryAfter_spec 0).2.2.2.2.2.2.2 (.intForm 300)⟩

/-- C5: only GET, HEAD, OPTIONS, TRACE, PUT and DELETE are
retry-eligible; a request with any other method (POST, PATCH, or an
unrecognized method) is forwarded to the wrapped transport exactly once,
its outcome returned unchanged regardless of status code or error. -/
theorem nonIdempotent_single_attempt (t : RetryTransport)
    (oracle : Nat → Attempt) (now : Int) (method : String)
    (h : isIdempotent method = false) :
    (∀ m : String, isIdempotent m = true ↔ m ∈ idempotentMethods) ∧
    (retryRoundTrip t method oracle now).2.1 = 1 ∧
    (retryRoundTrip t method oracle now).2.2 = [] ∧
    (retryRoundTrip t method oracle now).1 =
      (match oracle 0 with
       | .err e => .error (.transportErr e)
       | .resp r => .ok r) := by
  refine ⟨isIdempotent_iff_mem, ?_, ?_, ?_⟩ <;>
    · simp only [retryRoundTrip, h, if_pos]
      cases oracle 0 <;> rfl

/-- C5 witness: a POST against an always-503 transport makes exactly one
attempt and surfaces the 503 response. -/
theorem nonIdempotent_single_attempt_witness :
    (retryRoundTrip
      (newRetryTransport
        { MaxRetries := 3, InitialInterval := 0, MaxInterval := 0,
          Multiplier := 0, RetriableStatusCodes := none })
      "POST" (fun _ => .resp { statusCode := 503, retryAfter := .empty }) 0).2.1 = 1 ∧
    (retryRoundTrip
      (newRetryTransport
        { MaxRetries := 3, InitialInterval := 0, MaxInterval := 0,
          Multiplier := 0, RetriableStatusCodes := none })
      "POST" (fun _ => .resp { statusCode := 503, retryAfter := .empty }) 0).1 =
      .ok { statusCode := 503, retryAfter := .empty } := by
  refine ⟨(nonIdempotent_single_attempt _ _ _ "POST" rfl).2.1, ?_⟩
  have h := (nonIdempotent_single_attempt
    (newRetryTransport
      { MaxRetries := 3, InitialInterval := 0, MaxInterval := 0,
        Multiplier := 0, RetriableStatusCodes := none })
    (fun _ => .resp { statusCode := 503, retryAfter := .empty }) 0 "POST" rfl).2.2.2
  rw [h]

theorem applyDefaults_idem (rs : RetrySettings) :
    rs.applyDefaults.applyDefaults = rs.applyDefaults := by
  unfold RetrySettings.applyDefaults
  obtain ⟨mr, ii, mi, mu, codes⟩ := rs
  by_cases h1 : mr = 0 <;> by_cases h2 : ii = 0 <;> by_cases h3 : mi = 0 <;>
    by_cases h4 : mu = 0 <;> rcases codes with _ | c <;>
    simp_all [defaultInitialInterval, defaultMaxInterval, defaultMultiplier,
      millisecond, second]

/-- C9: `applyDefaults` replaces every zero-valued field with its documented
default before validation and use; in particular `MaxRetries = 0` becomes 3,
so zero retries cannot be configured through `RetrySettings` — a zero
`MaxRetries` yields `uint(3)+1 = 4` total tries, indistinguishable from the
default configuration, and both validation and the transport constructor
operate on the defaulted settings. -/
theorem applyDefaults_spec (rs : RetrySettings) (timeout : Int)
    (h0 : rs.MaxRetries = 0) :
    (rs.applyDefaults.MaxRetries = if rs.MaxRetries = 0 then 3 else rs.MaxRetries) ∧
    (rs.applyDefaults.InitialInterval =
      if rs.InitialInterval = 0 then defaultInitialInterval else rs.InitialInterval) ∧
    (rs.applyDefaults.MaxInterval =
      if rs.MaxInterval = 0 then defaultMaxInterval else rs.MaxInterval) ∧
    (rs.applyDefaults.Multiplier =
      if rs.Multiplier = 0 then defaultMultiplier else rs.Multiplier) ∧
    (rs.applyDefaults.RetriableStatusCodes =
      some (rs.RetriableStatusCodes.getD defaultRetriableStatusCodes)) ∧
    validateRetrySettings rs timeout = validateRetrySettings rs.applyDefaults timeout ∧
    newRetryTransport rs = newRetryTransport rs.applyDefaults ∧
    rs.applyDefaults = RetrySettings.applyDefaults { rs with MaxRetries := 3 } ∧
    maxTries (newRetryTransport rs) = 4 ∧
    maxTries (newRetryTransport
      { MaxRetries := 0, InitialInterval := 0, MaxInterval := 0,
        Multiplier := 0, RetriableStatusCodes := none }) = 4 := by
  obtain ⟨mr, ii, mi, mu, codes⟩ := rs
  simp only at h0
  subst h0
  have hMR : (RetrySettings.applyDefaults ⟨0, ii, mi, mu, codes⟩).MaxRetries = 3 := by
    unfold RetrySettings.applyDefaults
    by_cases h2 : ii = 0 <;> by_cases h3 : mi = 0 <;> by_cases h4 : mu = 0 <;>
      rcases codes with _ | c <;> simp_all
  refine ⟨by simpa using hMR, ?_, ?_, ?_, ?_, ?_, ?_, ?_, ?_, by decide⟩
  · unfold RetrySettings.applyDefaults
    by_cases h2 : ii = 0 <;> by_cases h3 : mi = 0 <;> by_cases h4 : mu = 0 <;>
      rcases codes with _ | c <;> simp_all
  · unfold RetrySettings.applyDefaults
    by_cases h2 : ii = 0 <;> by_cases h3 : mi = 0 <;> by_cases h4 : mu = 0 <;>
      rcases codes with _ | c <;> simp_all
  · unfold RetrySettings.applyDefaults
    by_cases h2 : ii = 0 <;> by_cases h3 : mi = 0 <;> by_cases h4 : mu = 0 <;>
      rcases codes with _ | c <;> simp_all
  · unfold RetrySettings.applyDefaults
    by_cases h2 : ii = 0 <;> by_cases h3 : mi = 0 <;> by_cases h4 : mu = 0 <;>
      rcases codes with _ | c <;> simp_all
  · unfold validateRetrySettings
    rw [applyDefaults_idem]
  · unfold newRetryTransport
    rw [applyDefaults_idem]
  · unfold RetrySettings.applyDefaults
    simp
  · unfold maxTries newRetryTransport goUint64
    simp only [hMR]
    decide

/-- C9 witness: the all-zero settings default to (3, 500ms, 60s, 1.5,
[429, 502, 503, 504]) and to 4 total tries. -/
theorem applyDefaults_spec_witness :
    (RetrySettings.applyDefaults
      { MaxRetries := 0, InitialInterval := 0, MaxInterval := 0,
        Multiplier := 0, RetriableStatusCodes := none }).MaxRetries = 3 ∧
    maxTries (newRetryTransport
      { MaxRetries := 0, InitialInterval := 0, MaxInterval := 0,
        Multiplier := 0, RetriableStatusCodes := none }) = 4 := by
  have h := applyDefaults_spec
    { MaxRetries := 0, InitialInterval := 0, MaxInterval := 0,
      Multiplier := 0, RetriableStatusCodes := none } (10 * second) rfl
  exact ⟨by simpa using h.1, h.2.2.2.2.2.2.2.2.1⟩

/-- C8: looking up a key absent from the breaker registry makes every
breaker-scoped operation — `GetBreaker`, `ShouldTrip`,
`ExecuteWithBreaker` — panic (modelled as `none`, abnormal termination
rather than a recoverable error value), and a registered key never panics
on lookup: each operation yields a value exactly when the key is
registered. -/
theorem breakerLookup_panic_iff (c : HTTPClient) (key : CircuitBreakerKey)
    (statusCode : Int) (now : Int) (fnRes : Except String SimpleResponse) :
    ((GetBreaker c key).isSome = (List.lookup key c.breakers).isSome) ∧
    ((ShouldTrip c key statusCode).isSome = (List.lookup key c.breakers).isSome) ∧
    ((ExecuteWithBreaker c key now fnRes).isSome = (List.lookup key c.breakers).isSome) := by
  refine ⟨?_, ?_, ?_⟩ <;>
    · cases h : List.lookup key c.breakers <;>
        simp [GetBreaker, ShouldTrip, ExecuteWithBreaker, h]

/-- The retry settings of the spec's construction-failure example:
maxRetries 5, initial interval 5s, max interval 10s, multiplier 2.0. -/
def exampleRetrySettings : RetrySettings :=
  { MaxRetries := 5, InitialInterval := 5 * second, MaxInterval := 10 * second,
    Multiplier := 2, RetriableStatusCodes := none }

/-- C3: retry validation fails iff (after defaulting) maxRetries < 0,
initialInterval ≤ 0, maxInterval < initialInterval, multiplier < 1, or the
worst-case cumulative backoff reaches the client timeout; the spec's
example (5 retries, 5s initial, 10s cap, ×2.0 against a 10s deadline)
fails with the worst-case-backoff error (its worst case being 45s); and a
client construction whose retry policy fails validation returns an error —
no pipeline is ever built over a misconfigured policy. -/
theorem validateRetrySettings_spec (rs : RetrySettings) (timeout : Int)
    (cfg : ClientConfig) (hcfg : cfg.retrySettings = some rs)
    (htimeout : 0 < timeout) :
    ((validateRetrySettings rs timeout).isOk = false ↔
      (rs.applyDefaults.MaxRetries < 0 ∨
       rs.applyDefaults.InitialInterval ≤ 0 ∨
       rs.applyDefaults.MaxInterval < rs.applyDefaults.InitialInterval ∨
       rs.applyDefaults.Multiplier < 1 ∨
       timeout ≤ worstCaseRetryTime rs.applyDefaults)) ∧
    validateRetrySettings exampleRetrySettings (10 * second) =
      .error .worstCaseBackoffTooLarge ∧
    worstCaseRetryTime exampleRetrySettings.applyDefaults = 45 * second ∧
    ((NewClient timeout cfg).isOk = (validateRetrySettings rs timeout).isOk) := by
  refine ⟨?_, ?_, ?_, ?_⟩
  case refine_2 =>
    norm_num [validateRetrySettings, worstCaseRetryTime, worstCaseLoop,
      durMulTrunc, second, RetrySettings.applyDefaults, exampleRetrySettings,
      defaultRetriableStatusCodes]
  case refine_3 =>
    norm_num [worstCaseRetryTime, worstCaseLoop, durMulTrunc, second,
      RetrySettings.applyDefaults, exampleRetrySettings,
      defaultRetriableStatusCodes]
  · unfold validateRetrySettings
    dsimp only
    split
    · next h => simp [Except.isOk, Except.toBool]; tauto
    · split
      · next h => simp [Except.isOk, Except.toBool]; tauto
      · split
        · next h => simp [Except.isOk, Except.toBool]; tauto
        · split
          · next h => simp [Except.isOk, Except.toBool]; tauto
          · split
            · next h => simp [Except.isOk, Except.toBool]; tauto
            · next h1 h2 h3 h4 h5 =>
              simp only [Except.isOk, Except.toBool]
              constructor
              · intro h
                simp at h
              · intro h
                rcases h with h | h | h | h | h
                · exact absurd h h1
                · exact absurd h h2
                · exact absurd h h3
                · exact absurd h h4
                · exact absurd h h5
  · unfold NewClient
    rw [if_neg (by omega), hcfg]
    cases hv : validateRetrySettings rs timeout <;>
      simp [Except.isOk, Except.toBool, hv]

/-- C3 witness: the spec's example against a 10s deadline is rejected
(both directly and through `NewClient`), and the all-defaults policy
against a 30s deadline is accepted. -/
theorem validateRetrySettings_spec_witness :
    (validateRetrySettings exampleRetrySettings (10 * second)).isOk = false ∧
    (NewClient (10 * second) { retrySettings := some exampleRetrySettings }).isOk = false ∧
    ((validateRetrySettings exampleRetrySettings (10 * second)).isOk = false ↔
      (exampleRetrySettings.applyDefaults.MaxRetries < 0 ∨
       exampleRetrySettings.applyDefaults.InitialInterval ≤ 0 ∨
       exampleRetrySettings.applyDefaults.MaxInterval <
         exampleRetrySettings.applyDefaults.InitialInterval ∨
       exampleRetrySettings.applyDefaults.Multiplier < 1 ∨
       (10 * second : Int) ≤ worstCaseRetryTime exampleRetrySettings.applyDefaults)) := by
  have h := validateRetrySettings_spec exampleRetrySettings (10 * second)
    { retrySettings := some exampleRetrySettings } rfl (by decide)
  refine ⟨by rw [h.2.1]; rfl, ?_, h.1⟩
  rw [h.2.2.2, h.2.1]
  rfl

/-- A retry transport with a 1ms backoff step (1 retry, ×2, codes
429/502/503), as in the repository's `TestRetryTransport_RetryAfterHeader`
setup. -/
def retryAfterCexTransport : RetryTransport :=
  newRetryTransport
    { MaxRetries := 1, InitialInterval := millisecond, MaxInterval := millisecond,
      Multiplier := 2, RetriableStatusCodes := some [429, 502, 503] }

/-- First attempt 429 with `Retry-After: 1`, second attempt 200. -/
def retryAfterCexOracle : Nat → Attempt := fun n =>
  if n = 0 then .resp { statusCode := 429, retryAfter := .intForm 1 }
  else .resp { statusCode := 200, retryAfter := .empty }

/-- C1 counterexample: with a 1ms exponential step and `Retry-After: 1`
(one second) on a 429, the recorded wait is the full second — not the
smaller of the two values (1ms). The Retry-After duration overrides the
exponential step rather than being min-ed with it, exactly as the
repository's `TestRetryTransport_RetryAfterHeader` requires (it expects
≥ 900ms elapsed with a 1ms backoff). -/
theorem retryAfter_min_counterexample :
    (retryRoundTrip retryAfterCexTransport "GET" retryAfterCexOracle 0).2.2 =
      [second] ∧
    min retryAfterCexTransport.initialInterval (parseRetryAfter (.intForm 1) 0) =
      millisecond ∧
    (second : Int) ≠ millisecond := by
  refine ⟨rfl, ?_, by decide⟩
  have hinit : retryAfterCexTransport.initialInterval = millisecond := rfl
  have hra : parseRetryAfter (.intForm 1) 0 = second := rfl
  rw [hinit, hra]
  norm_num [min_def, millisecond, second]

/-- C1 (amended): for a retry-eligible request, the wait before attempt
`j+1` is the parsed `Retry-After` duration when attempt `j` returned a
retriable 429 or 503 carrying a valid (positive, ≤ 5min) `Retry-After`
header — overriding the exponential step entirely, even when larger — and
the exponential backoff step otherwise; a retriable status other than
429/503 yields the generic retriable-status failure (`Retry-After` ignored
even if present), so its wait is the exponential step. -/
theorem retryAfter_override_spec (t : RetryTransport) (oracle : Nat → Attempt)
    (now : Int) (method : String) (j : Nat)
    (h : isIdempotent method = true)
    (hj : j < (retryRoundTrip t method oracle now).2.2.length) :
    ((retryRoundTrip t method oracle now).2.2.getD j 0 =
      match opStep t now (oracle j) with
      | .error (.retryAfterErr d) => d
      | _ => intervalAt t t.initialInterval j) ∧
    (∀ r : Response, shouldRetry t r.statusCode = true →
      (((r.statusCode = 429 ∨ r.statusCode = 503) ∧
          0 < parseRetryAfter r.retryAfter now) →
        opStep t now (.resp r) =
          .error (.retryAfterErr (parseRetryAfter r.retryAfter now))) ∧
      (¬((r.statusCode = 429 ∨ r.statusCode = 503) ∧
          0 < parseRetryAfter r.retryAfter now) →
        opStep t now (.resp r) = .error (.retriableStatus r.statusCode))) := by
  constructor
  · simp only [retryRoundTrip, h] at hj ⊢
    rcases Nat.eq_zero_or_pos (maxTries t) with h0 | h1
    · rw [h0] at hj
      simp [retryLoop] at hj
    · have hs := (retryLoop_spec t oracle now (maxTries t) 0 t.initialInterval h1).2.2.2.2
      have hw := hs j hj
      simpa using hw
  · intro r hsr
    constructor
    · intro hc
      simp only [opStep]
      rw [if_neg (by simp [hsr]), if_pos hc]
    · intro hc
      simp only [opStep]
      rw [if_neg (by simp [hsr]), if_neg hc]

/-- C1 witness: in the counterexample scenario the first wait matches the
amended rule (it is the Retry-After second), and the 429-with-header
attempt classifies as a `RetryAfterError`. -/
theorem retryAfter_override_spec_witness :
    ((retryRoundTrip retryAfterCexTransport "GET" retryAfterCexOracle 0).2.2.getD 0 0 =
      match opStep retryAfterCexTransport 0 (retryAfterCexOracle 0) with
      | .error (.retryAfterErr d) => d
      | _ => intervalAt retryAfterCexTransport retryAfterCexTransport.initialInterval 0) ∧
    opStep retryAfterCexTransport 0
        (.resp { statusCode := 429, retryAfter := .intForm 1 }) =
      .error (.retryAfterErr (parseRetryAfter (.intForm 1) 0)) := by
  refine ⟨(retryAfter_override_spec retryAfterCexTransport retryAfterCexOracle 0
    "GET" 0 rfl (by decide)).1, ?_⟩
  exact ((retryAfter_override_spec retryAfterCexTransport retryAfterCexOracle 0
    "GET" 0 rfl (by decide)).2
      { statusCode := 429, retryAfter := .intForm 1 } (by decide)).1 (by decide)

/-- A retry transport with 1 retry and a terminal transport that always
answers 503 without a `Retry-After` header. -/
def exhaustCexTransport : RetryTransport :=
  newRetryTransport
    { MaxRetries := 1, InitialInterval := millisecond, MaxInterval := millisecond,
      Multiplier := 2, RetriableStatusCodes := some [429, 502, 503] }

def exhaustCexOracle : Nat → Attempt := fun _ =>
  .resp { statusCode := 503, retryAfter := .empty }

/-- C2 counterexample: a GET against an always-503 transport with 1 retry
makes 2 attempts; the final attempt's 503 response exists, yet the caller
receives the `retriable status code: 503` error, not that response — the
response is consumed (drained and closed inside the op) on the final
attempt too, so it is not "returned as-is". -/
theorem exhausted_response_counterexample :
    exhaustCexOracle 1 = .resp { statusCode := 503, retryAfter := .empty } ∧
    (retryRoundTrip exhaustCexTransport "GET" exhaustCexOracle 0).2.1 = 2 ∧
    (retryRoundTrip exhaustCexTransport "GET" exhaustCexOracle 0).1 =
      .error (.retriableStatus 503) :=
  ⟨rfl, rfl, rfl⟩

/-- C2 (amended): when a retry-eligible request exhausts its attempts, the
final attempt's op-level outcome is propagated with no further wait (one
wait per non-final attempt only) — but a retriable final response is not
surfaced: it is consumed inside the op and replaced by the corresponding
failure (a retry-after error, or the retriable-status error), so every
response the retry stage ever returns has a non-retriable status, and
retriable responses of non-final attempts are likewise consumed and never
surfaced. -/
theorem exhaustion_spec (t : RetryTransport) (oracle : Nat → Attempt)
    (now : Int) (method : String)
    (h : isIdempotent method = true) (hmt : 1 ≤ maxTries t) :
    1 ≤ (retryRoundTrip t method oracle now).2.1 ∧
    (retryRoundTrip t method oracle now).2.1 ≤ maxTries t ∧
    (retryRoundTrip t method oracle now).1 =
      opStep t now (oracle ((retryRoundTrip t method oracle now).2.1 - 1)) ∧
    (retryRoundTrip t method oracle now).2.2.length =
      (retryRoundTrip t method oracle now).2.1 - 1 ∧
    (∀ r, (retryRoundTrip t method oracle now).1 = .ok r →
      shouldRetry t r.statusCode = false) := by
  have hrt : retryRoundTrip t method oracle now =
      retryLoop t oracle now (maxTries t) 0 t.initialInterval := by
    simp [retryRoundTrip, h]
  rw [hrt]
  obtain ⟨h1, h2, h3, h4, h5⟩ :=
    retryLoop_spec t oracle now (maxTries t) 0 t.initialInterval hmt
  refine ⟨h1, h2, by simpa using h3, h4, ?_⟩
  intro r hr
  have h3s : (retryLoop t oracle now (maxTries t) 0 t.initialInterval).1 =
      opStep t now (oracle
        ((retryLoop t oracle now (maxTries t) 0 t.initialInterval).2.1 - 1)) := by
    simpa using h3
  rw [h3s] at hr
  exact opStep_ok t now _ r hr

/-- C2 witness: the exhaustion scenario's result is exactly the final
attempt's op outcome, with one recorded wait for two attempts. -/
theorem exhaustion_spec_witness :
    (retryRoundTrip exhaustCexTransport "GET" exhaustCexOracle 0).1 =
      opStep exhaustCexTransport 0 (exhaustCexOracle
        ((retryRoundTrip exhaustCexTransport "GET" exhaustCexOracle 0).2.1 - 1)) ∧
    (retryRoundTrip exhaustCexTransport "GET" exhaustCexOracle 0).2.2.length =
      (retryRoundTrip exhaustCexTransport "GET" exhaustCexOracle 0).2.1 - 1 :=
  ⟨(exhaustion_spec exhaustCexTransport exhaustCexOracle 0 "GET" rfl (by decide)).2.2.1,
   (exhaustion_spec exhaustCexTransport exhaustCexOracle 0 "GET" rfl (by decide)).2.2.2.1⟩

theorem hGet_hSet_self (h : Header) (k v : String) : hGet (hSet h k v) k = v := by
  simp [hGet, hSet, List.lookup]

theorem lookup_filter_ne (h : Header) (k name : String) (hne : name ≠ k) :
    List.lookup name (List.filter (fun p => decide (p.1 ≠ k)) h) =
      List.lookup name h := by
  induction h with
  | nil => rfl
  | cons kv rest ih =>
    obtain ⟨k1, v1⟩ := kv
    by_cases hk : k1 = k
    · subst hk
      have hb : (name == k1) = false := by simpa using hne
      simp only [List.filter_cons]
      rw [if_neg (by simp)]
      simp only [List.lookup, hb]
      simpa [decide_not] using ih
    · by_cases hn : name = k1
      · subst hn
        simp only [List.filter_cons]
        rw [if_pos (by simpa using hk)]
        simp [List.lookup]
      · have hb : (name == k1) = false := by simpa using hn
        simp only [List.filter_cons]
        rw [if_pos (by simpa using hk)]
        simp only [List.lookup, hb]
        simpa [decide_not] using ih

theorem hGet_hSet_ne (h : Header) (k v name : String) (hne : name ≠ k) :
    hGet (hSet h k v) name = hGet h name := by
  have hb : (name == k) = false := by simpa using hne
  simp only [hGet, hSet, List.lookup, hb]
  rw [lookup_filter_ne h k name hne]

/-- The static-header pass of `headerTransform` preserves every name that
already resolves to a non-empty value. -/
theorem staticFold_preserves (l : List (String × String)) (h : Header)
    (name : String) (hne : hGet h name ≠ "") :
    hGet (l.foldl
      (fun acc kv => if hGet acc kv.1 = "" then hSet acc kv.1 kv.2 else acc) h)
      name = hGet h name := by
  induction l generalizing h with
  | nil => rfl
  | cons kv rest ih =>
    simp only [List.foldl_cons]
    by_cases hk : kv.1 = name
    · rw [if_neg (by rw [hk]; exact hne)]
      exact ih h hne
    · by_cases hset : hGet h kv.1 = ""
      · rw [if_pos hset]
        have hpres : hGet (hSet h kv.1 kv.2) name = hGet h name :=
          hGet_hSet_ne h kv.1 kv.2 name (fun hc => hk hc.symm)
        rw [ih (hSet h kv.1 kv.2) (by rw [hpres]; exact hne), hpres]
      · rw [if_neg hset]
        exact ih h hne

/-- The context-header pass of `headerTransform` preserves every name that
already resolves to a non-empty value. -/
theorem ctxFold_preserves (l : List (String × String))
    (ctx : String → Option String) (h : Header) (name : String)
    (hne : hGet h name ≠ "") :
    hGet (l.foldl
      (fun acc kv =>
        match ctx kv.2 with
        | none => acc
        | some value =>
          if hGet acc kv.1 ≠ "" then acc else hSet acc kv.1 value) h)
      name = hGet h name := by
  induction l generalizing h with
  | nil => rfl
  | cons kv rest ih =>
    simp only [List.foldl_cons]
    cases hctx : ctx kv.2 with
    | none => exact ih h hne
    | some value =>
      dsimp only
      by_cases hk : kv.1 = name
      · rw [if_pos (by rw [hk]; exact hne)]
        exact ih h hne
      · by_cases hset : hGet h kv.1 ≠ ""
        · rw [if_pos hset]
          exact ih h hne
        · rw [if_neg hset]
          have hpres : hGet (hSet h kv.1 value) name = hGet h name :=
            hGet_hSet_ne h kv.1 value name (fun hc => hk hc.symm)
          rw [ih (hSet h kv.1 value) (by rw [hpres]; exact hne), hpres]

/-- A request header whose first value is the empty string but which IS
present: the header-injection stage overwrites it. -/
def emptyValuedHeader : Header := [("X-API-Key", [""])]

def apiKeySettings : HeaderSettings :=
  { StaticHeaders := [("X-API-Key", "secret")], ContextHeaders := [] }

/-- C6 counterexample: a request that already carries `X-API-Key` with the
empty-string value does NOT keep its original value — the stage checks
`Header.Get(k) == ""`, which cannot distinguish an empty value from an
absent header, so the configured `secret` replaces the caller's empty
value. -/
theorem header_empty_value_counterexample :
    List.lookup "X-API-Key" emptyValuedHeader = some [""] ∧
    hGet emptyValuedHeader "X-API-Key" = "" ∧
    hGet (headerTransform apiKeySettings (fun _ => none) emptyValuedHeader)
      "X-API-Key" = "secret" ∧
    ("secret" : String) ≠ "" :=
  ⟨rfl, rfl, rfl, by decide⟩

/-- C6 (amended): the header-injection stage operates on a clone of the
request (the transform is a pure function of the original headers, which
are left untouched) and sets a header only when `Get` of its name is
empty — i.e. only when the request does not already carry a NON-EMPTY
value for it: an existing non-empty value always survives, both against
static and context-derived headers; a request lacking the header (or
carrying it with an empty value) receives the configured static value, or
the context-derived value when the context key resolves; an unresolvable
context key leaves the header absent. -/
theorem headerTransform_spec (s : HeaderSettings) (ctx : String → Option String)
    (h : Header) (name : String) :
    (hGet h name ≠ "" →
      hGet (headerTransform s ctx h) name = hGet h name) ∧
    (∀ value : String, value ≠ "" → hGet h name = "" →
      s.StaticHeaders = [(name, value)] →
      hGet (headerTransform s ctx h) name = value) ∧
    (∀ ctxKey value : String, s.StaticHeaders = [] →
      s.ContextHeaders = [(name, ctxKey)] → ctx ctxKey = some value →
      hGet h name = "" →
      hGet (headerTransform s ctx h) name = value) ∧
    (∀ ctxKey : String, s.StaticHeaders = [] →
      s.ContextHeaders = [(name, ctxKey)] → ctx ctxKey = none →
      hGet (headerTransform s ctx h) name = hGet h name) := by
  refine ⟨?_, ?_, ?_, ?_⟩
  · intro hne
    unfold headerTransform
    have hstat := staticFold_preserves s.StaticHeaders h name hne
    have hctx := ctxFold_preserves s.ContextHeaders ctx
      (s.StaticHeaders.foldl
        (fun acc kv => if hGet acc kv.1 = "" then hSet acc kv.1 kv.2 else acc) h)
      name (by rw [hstat]; exact hne)
    rw [hctx, hstat]
  · intro value hval hempty hstat
    unfold headerTransform
    rw [hstat]
    simp only [List.foldl_cons, List.foldl_nil]
    rw [if_pos hempty]
    have hset : hGet (hSet h name value) name = value := hGet_hSet_self h name value
    rw [ctxFold_preserves s.ContextHeaders ctx (hSet h name value) name
      (by rw [hset]; exact hval), hset]
  · intro ctxKey value hstat hctxh hctx hempty
    unfold headerTransform
    rw [hstat, hctxh]
    simp only [List.foldl_cons, List.foldl_nil, hctx]
    rw [if_neg (by simpa using hempty)]
    exact hGet_hSet_self h name value
  · intro ctxKey hstat hctxh hctx
    unfold headerTransform
    rw [hstat, hctxh]
    simp only [List.foldl_cons, List.foldl_nil, hctx]

/-- C6 witness: `X-API-Key: secret` is added to a request lacking it, kept
at `mine` on a request that already sets it, and a context-derived
`X-Request-ID` follows the same precedence. -/
theorem headerTransform_spec_witness :
    hGet (headerTransform apiKeySettings (fun _ => none)
      [("X-API-Key", ["mine"])]) "X-API-Key" = "mine" ∧
    hGet (headerTransform apiKeySettings (fun _ => none) []) "X-API-Key" = "secret" ∧
    hGet (headerTransform
      { StaticHeaders := [], ContextHeaders := [("X-Request-ID", "ridKey")] }
      (fun k => if k = "ridKey" then some "r-1" else none) [])
      "X-Request-ID" = "r-1" := by
  refine ⟨?_, ?_, ?_⟩
  · exact (headerTransform_spec apiKeySettings (fun _ => none)
      [("X-API-Key", ["mine"])] "X-API-Key").1 (by decide)
  · exact (headerTransform_spec apiKeySettings (fun _ => none) []
      "X-API-Key").2.1 "secret" (by decide) rfl rfl
  · exact (headerTransform_spec
      { StaticHeaders := [], ContextHeaders := [("X-Request-ID", "ridKey")] }
      (fun k => if k = "ridKey" then some "r-1" else none) []
      "X-Request-ID").2.2.1 "ridKey" "r-1" rfl rfl (by decide) rfl

/-- A client whose registry holds one breaker under `key`, configured to
trip after 1 consecutive failure, with open-timeout `T` and the default
(≥ 500) trip predicate. -/
def mkBreakerClient (key : CircuitBreakerKey) (T : Int) : HTTPClient :=
  { breakers := newCircuitBreakers
      [(key, { readyToTrip := fun n => decide (1 ≤ n), timeout := T,
               ShouldTrip := none })] }

/-- C7: against a trip-after-1 breaker with the default ≥ 500 predicate, the
first `ExecuteWithBreaker` call whose operation returns a 500-class
response yields the real response together with the `ErrBadResponse` trip
marker (and the operation was invoked); any immediately following call
(before the open timeout elapses) yields the breaker-open error with the
operation NOT invoked — zero transport attempts — whatever that second
operation would have returned. -/
theorem breaker_trip_then_open (key : CircuitBreakerKey) (T : Int)
    (resp : SimpleResponse) (t0 t1 : Int) (fn2 : Except String SimpleResponse)
    (h500 : 500 ≤ resp.status) (hT : t1 < t0 + T) :
    ((ExecuteWithBreaker (mkBreakerClient key T) key t0 (.ok resp)).map
      (fun x => (x.1, x.2.2))) = some ((some resp, some .badResponse), true) ∧
    (∀ c1, ExecuteWithBreaker (mkBreakerClient key T) key t0 (.ok resp) =
        some ((some resp, some .badResponse), c1, true) →
      ((ExecuteWithBreaker c1 key t1 fn2).map (fun x => (x.1, x.2.2))) =
        some ((none, some .openState), false)) := by
  have hlookup : List.lookup key (mkBreakerClient key T).breakers =
      some { readyToTrip := fun n => decide (1 ≤ n), timeout := T,
             shouldTrip := defaultShouldTrip, breaker := initialBreaker } := by
    simp [mkBreakerClient, newCircuitBreakers, List.lookup, defaultShouldTrip]
  have hstep1 : ExecuteWithBreaker (mkBreakerClient key T) key t0 (.ok resp) =
      some ((some resp, some .badResponse),
        setBreaker (mkBreakerClient key T) key
          { state := .opened, consecutiveFailures := 0, openedAt := t0 }, true) := by
    rw [ExecuteWithBreaker, hlookup]
    simp only [breakerExecute, Breaker.current, initialBreaker, Breaker.onFailure,
      defaultShouldTrip]
    rw [if_pos (by simpa using h500)]
    simp
  constructor
  · rw [hstep1]
    rfl
  · intro c1 hc1
    rw [hstep1] at hc1
    have hc1eq : c1 = setBreaker (mkBreakerClient key T) key
        { state := .opened, consecutiveFailures := 0, openedAt := t0 } := by
      have := Option.some.inj hc1
      exact (congrArg (fun x => x.2.1) this).symm
    subst hc1eq
    have hb : (setBreaker (mkBreakerClient key T) key
        { state := .opened, consecutiveFailures := 0, openedAt := t0 }).breakers =
        [(key, { readyToTrip := fun n => decide (1 ≤ n), timeout := T,
                 shouldTrip := defaultShouldTrip,
                 breaker := { state := .opened, consecutiveFailures := 0,
                              openedAt := t0 } })] := by
      simp [setBreaker, mkBreakerClient, newCircuitBreakers, defaultShouldTrip]
    have hlookup2 : List.lookup key (setBreaker (mkBreakerClient key T) key
        { state := .opened, consecutiveFailures := 0, openedAt := t0 }).breakers =
        some { readyToTrip := fun n => decide (1 ≤ n), timeout := T,
               shouldTrip := defaultShouldTrip,
               breaker := { state := .opened, consecutiveFailures := 0,
                            openedAt := t0 } } := by
      rw [hb]
      simp [List.lookup]
    rw [ExecuteWithBreaker, hlookup2]
    simp only [breakerExecute, Breaker.current]
    rw [if_neg (by omega)]
    rfl

/-- C7 witness: the concrete two-call run with key `svc`, a 1000ns open
timeout, an always-500 operation at time 0 and a second call at time 1. -/
theorem breaker_trip_then_open_witness :
    ((ExecuteWithBreaker (mkBreakerClient "svc" 1000) "svc" 0
      (.ok { status := 500, body := "boom" })).map
        (fun x => (x.1, x.2.2))) =
      some ((some { status := 500, body := "boom" }, some .badResponse), true) ∧
    ((ExecuteWithBreaker
      (setBreaker (mkBreakerClient "svc" 1000) "svc"
        { state := .opened, consecutiveFailures := 0, openedAt := 0 })
      "svc" 1 (.ok { status := 200, body := "fine" })).map
        (fun x => (x.1, x.2.2))) = some ((none, some .openState), false) := by
  refine ⟨(breaker_trip_then_open "svc" 1000 { status := 500, body := "boom" }
    0 1 (.ok { status := 200, body := "fine" }) (by decide) (by decide)).1, ?_⟩
  exact (breaker_trip_then_open "svc" 1000 { status := 500, body := "boom" }
    0 1 (.ok { status := 200, body := "fine" }) (by decide) (by decide)).2 _ rfl

/-- C10: in the standalone circuit-breaker transport, when the breaker
admits the call and the wrapped round trip yields a response whose status
satisfies the trip predicate, the breaker records a failure (the
consecutive-failure count increments or the breaker opens) yet the caller
receives that response with a nil error — the internal trip marker is
suppressed; a genuine transport error is returned as an error; an open
breaker returns the breaker-open error without invoking the wrapped round
trip; and no call ever surfaces the internal `errBadResponse` marker. -/
theorem cbRoundTrip_suppresses_marker (t : CBTransport) (now : Int)
    (resp : SimpleResponse) (e : String)
    (hclosed : t.cb.current t.timeout now = .closed)
    (htrip : t.shouldTrip resp.status = true) :
    (cbRoundTrip t now (.ok resp)).1 = (some resp, none) ∧
    (cbRoundTrip t now (.ok resp)).2.2 = true ∧
    ((cbRoundTrip t now (.ok resp)).2.1.cb.consecutiveFailures =
        t.cb.consecutiveFailures + 1 ∨
      (cbRoundTrip t now (.ok resp)).2.1.cb.state = .opened) ∧
    (cbRoundTrip t now (.error e)).1 = (none, some (.opErr e)) ∧
    (∀ (u : CBTransport) (now2 : Int) (a : Except String SimpleResponse),
      (cbRoundTrip u now2 a).1.2 ≠ some .badResponse) ∧
    (∀ (u : CBTransport) (now2 : Int) (a : Except String SimpleResponse),
      u.cb.current u.timeout now2 = .opened →
        (cbRoundTrip u now2 a).1 = (none, some .openState) ∧
        (cbRoundTrip u now2 a).2.2 = false) := by
  refine ⟨?_, ?_, ?_, ?_, ?_, ?_⟩
  · simp [cbRoundTrip, breakerExecute, hclosed, htrip]
  · simp [cbRoundTrip, breakerExecute, hclosed, htrip]
  · simp only [cbRoundTrip, breakerExecute, hclosed, htrip, if_pos]
    simp only [Breaker.onFailure]
    split
    · right; rfl
    · left; rfl
  · simp [cbRoundTrip, breakerExecute, hclosed]
  · intro u now2 a
    unfold cbRoundTrip breakerExecute
    cases hcur : u.cb.current u.timeout now2 with
    | opened => cases a <;> simp [hcur]
    | closed =>
      cases a with
      | error e2 => simp [hcur]
      | ok r2 =>
        by_cases hst : u.shouldTrip r2.status = true
        · simp [hcur, hst]
        · simp [hcur, hst]
    | halfOpen =>
      cases a with
      | error e2 => simp [hcur]
      | ok r2 =>
        by_cases hst : u.shouldTrip r2.status = true
        · simp [hcur, hst]
        · simp [hcur, hst]
  · intro u now2 a hopen
    unfold cbRoundTrip breakerExecute
    rw [hopen]
    cases a <;> simp

/-- C10 witness: a fresh trip-after-1 breaker transport passes a 500
response through with a nil error while opening the breaker, surfaces a
transport error, and once open fails fast without invoking the wrapped
transport. -/
theorem cbRoundTrip_suppresses_marker_witness :
    (cbRoundTrip (cbNewRoundTripper
      { readyToTrip := fun n => decide (1 ≤ n), timeout := 1000,
        ShouldTrip := none }) 0
      (.ok { status := 500, body := "boom" })).1 =
      (some { status := 500, body := "boom" }, none) ∧
    (cbRoundTrip (cbNewRoundTripper
      { readyToTrip := fun n => decide (1 ≤ n), timeout := 1000,
        ShouldTrip := none }) 0 (.error "conn refused")).1 =
      (none, some (.opErr "conn refused")) := by
  have h := cbRoundTrip_suppresses_marker
    (cbNewRoundTripper
      { readyToTrip := fun n => decide (1 ≤ n), timeout := 1000,
        ShouldTrip := none }) 0
    { status := 500, body := "boom" } "conn refused" rfl (by decide)
  exact ⟨h.1, h.2.2.2.1⟩

end GoHttpClient
